import Mathlib

/-!
Verification development for the email-automation service.

The definitions below are a shallow embedding of the JavaScript source:

* `src/core/huggingfaceService.js` — the `HuggingFaceAIService` class with its
  local inference engine (`performLocalAnalysis` and helpers) and the
  capability calls `analyzeEmail`, `generateEmailResponse`,
  `summarizeEmailThread`, `extractActionItems`;
* `src/core/emailClient.js` — the extraction utilities
  `extractVerificationLinks` / `extractVerificationCode` of
  `HostingerEmailClient`, and `MultiAIService.parseAIResponse`;
* `src/automation/emailVerification.js` — the `EmailVerificationWorkflow`
  class (`executeVerificationWorkflow`, `waitForVerificationEmail`,
  `cleanup`).

External effects (the Hugging Face network call, `JSON.parse` of vendor
output, IMAP queries, the headless browser) are passed in as explicit
parameters; machine time (`Date.now()`) is an explicit `Int` of
milliseconds.  JavaScript strings are modelled over their character lists;
the case mappings and whitespace classes are the ASCII ones, which is the
range the rule tables of the source use.
-/

set_option maxRecDepth 8192

namespace EmailAuto

/-- ASCII fragment of the JavaScript `\s` whitespace class, used by
`String.prototype.split(/\s+/)` and the regex matchers below. -/
def jsIsWs (c : Char) : Bool :=
  c == ' ' || c == '\t' || c == '\n' || c == '\r' || c == '\x0b' || c == '\x0c'

/-- `startsWithList p l` : the character list `p` starts the list `l`. -/
def startsWithList : List Char → List Char → Bool
  | [], _ => true
  | _ :: _, [] => false
  | a :: as, b :: bs => a == b && startsWithList as bs

/-- `hasSubList needle hay` : `needle` occurs contiguously inside `hay`
(JavaScript `String.prototype.includes`). -/
def hasSubList (needle : List Char) : List Char → Bool
  | [] => startsWithList needle []
  | c :: cs => startsWithList needle (c :: cs) || hasSubList needle cs

/-- JavaScript `content.includes(sub)`. -/
def jsIncludes (s sub : String) : Bool :=
  hasSubList sub.toList s.toList

/-- ASCII lowercase map at the character level. -/
def lowerChar (c : Char) : Char :=
  if 'A' ≤ c && c ≤ 'Z' then Char.ofNat (c.toNat + 32) else c

/-- ASCII uppercase map at the character level. -/
def upperChar (c : Char) : Char :=
  if 'a' ≤ c && c ≤ 'z' then Char.ofNat (c.toNat - 32) else c

/-- JavaScript `s.toLowerCase()` (ASCII case mapping). -/
def jsToLower (s : String) : String :=
  String.mk (s.toList.map lowerChar)

/-- JavaScript `s.toUpperCase()` (ASCII case mapping). -/
def jsToUpper (s : String) : String :=
  String.mk (s.toList.map upperChar)

/-- Worker for `String.prototype.split` against a one-character-class regex
with `+`: separators are maximal runs of characters satisfying `p`; an
empty field is produced before a leading run and after a trailing one,
matching the JavaScript semantics.  `acc` is the reversed current field and
`inSep` records whether the previous character belonged to a separator
run. -/
def splitRunsCore (p : Char → Bool) : List Char → List Char → Bool → List String
  | [], acc, _ => [String.mk acc.reverse]
  | c :: cs, acc, inSep =>
    if p c then
      if inSep then splitRunsCore p cs acc true
      else String.mk acc.reverse :: splitRunsCore p cs [] true
    else
      splitRunsCore p cs (c :: acc) false

/-- JavaScript `s.split(/\s+/)`. -/
def jsSplitWs (s : String) : List String :=
  splitRunsCore jsIsWs s.toList [] false

/-- JavaScript `s.split(/[.!?]+/)` (sentence splitting in
`extractActionItemsLocal`). -/
def jsSplitSentences (s : String) : List String :=
  splitRunsCore (fun c => c == '.' || c == '!' || c == '?') s.toList [] false

/-- Number of occurrences of the character `c` in `s`
(JavaScript `(s.match(/c/g) || []).length`). -/
def countChar (s : String) (c : Char) : Nat :=
  (s.toList.filter (fun x => x == c)).length

/-- `keywords.filter(k => content.includes(k)).length` — the number of
keywords of the list that occur in `content`. -/
def keywordScore (content : String) (kws : List String) : Nat :=
  (kws.filter (fun k => jsIncludes content k)).length

/-- The fixed category keyword table of `detectCategory`, in source order. -/
def categoryKeywords : List (String × List String) :=
  [("urgent", ["urgent", "asap", "immediate", "emergency", "critical", "deadline", "rush"]),
   ("support", ["help", "issue", "problem", "bug", "error", "support", "assistance", "trouble"]),
   ("sales", ["purchase", "buy", "order", "payment", "invoice", "billing", "subscription", "pricing", "cost", "quote"]),
   ("meeting", ["meeting", "schedule", "appointment", "call", "conference", "zoom", "teams"]),
   ("report", ["report", "status", "update", "progress", "summary", "quarterly", "monthly"]),
   ("complaint", ["complaint", "dissatisfied", "unhappy", "frustrated", "disappointed", "refund"])]

/-- `HuggingFaceAIService.detectCategory`: fold over the category table,
replacing the best candidate only on a strictly larger score; the
accumulator starts at `(0, "general")`. -/
def detectCategory (content : String) : String :=
  (categoryKeywords.foldl
    (fun acc ck =>
      let score := keywordScore content ck.2
      if score > acc.1 then (score, ck.1) else acc)
    (0, "general")).2

def highPriorityKeywords : List String :=
  ["urgent", "asap", "immediate", "critical", "emergency", "deadline", "today", "now", "important", "priority"]

def lowPriorityKeywords : List String :=
  ["whenever", "no rush", "when possible", "eventually", "sometime"]

/-- `HuggingFaceAIService.detectPriority(content, words)`.  `content` is the
text the keyword scores run over and `words` the token list the all-caps
check runs over; the caller `performLocalAnalysis` passes both already
lowercased. -/
def detectPriority (content : String) (words : List String) : String :=
  let highScore := keywordScore content highPriorityKeywords
  let lowScore := keywordScore content lowPriorityKeywords
  let hasExclamation := countChar content '!' > 2
  let hasAllCaps :=
    (words.filter (fun w => w.length > 3 && w == jsToUpper w)).length > 0
  if highScore ≥ 2 || hasExclamation || hasAllCaps then "high"
  else if lowScore > 0 then "low"
  else "medium"

def positiveWords : List String :=
  ["thank", "thanks", "great", "excellent", "amazing", "wonderful", "love", "perfect", "awesome", "happy", "pleased", "satisfied"]

def negativeWords : List String :=
  ["angry", "frustrated", "disappointed", "terrible", "awful", "hate", "worst", "horrible", "upset", "complaint", "problem", "issue"]

/-- `HuggingFaceAIService.detectSentiment`. -/
def detectSentiment (content : String) : String :=
  let positiveScore := keywordScore content positiveWords
  let negativeScore := keywordScore content negativeWords
  if positiveScore > negativeScore && positiveScore > 0 then "positive"
  else if negativeScore > positiveScore && negativeScore > 0 then "negative"
  else "neutral"

/-- `HuggingFaceAIService.calculateUrgencyScore`. -/
def calculateUrgencyScore (content : String) : Nat :=
  let score := 5
    + (if jsIncludes content "urgent" then 3 else 0)
    + (if jsIncludes content "asap" then 3 else 0)
    + (if jsIncludes content "immediate" then 2 else 0)
    + (if jsIncludes content "deadline" then 2 else 0)
    + (if jsIncludes content "today" then 1 else 0)
    + (if countChar content '!' > 1 then 1 else 0)
  min 10 (max 1 score)

def commonWords : List String :=
  ["the", "a", "an", "and", "or", "but", "in", "on", "at", "to", "for", "of", "with", "by", "is", "are", "was", "were", "be", "been", "have", "has", "had", "do", "does", "did", "will", "would", "could", "should", "can", "may", "might", "i", "you", "he", "she", "it", "we", "they", "this", "that", "these", "those"]

/-- First-occurrence de-duplication, JavaScript `[...new Set(xs)]`. -/
def dedupFirstGo (seen : List String) : List String → List String
  | [] => []
  | x :: xs =>
    if seen.contains x then dedupFirstGo seen xs
    else x :: dedupFirstGo (x :: seen) xs

/-- `HuggingFaceAIService.extractKeyTopics(content, words)` (the `content`
argument is unused by the source body as well). -/
def extractKeyTopics (_content : String) (words : List String) : List String :=
  let significantWords :=
    ((words.filter (fun w => w.length > 3 && !(commonWords.contains w))).filter
      (fun w => !w.toList.isEmpty && w.toList.all Char.isAlpha)).take 8
  (dedupFirstGo [] significantWords).take 5

def actionVerbs : List String :=
  ["complete", "finish", "send", "provide", "schedule", "call", "email", "review", "update", "prepare", "submit", "deliver"]

/-- JavaScript `s.trim()` (ASCII whitespace). -/
def jsTrim (s : String) : String :=
  String.mk (((s.toList.dropWhile jsIsWs).reverse.dropWhile jsIsWs).reverse)

/-- JavaScript `s.substring(0, n)`. -/
def jsTake (s : String) (n : Nat) : String :=
  String.mk (s.toList.take n)

/-- `HuggingFaceAIService.extractActionItemsLocal`: sentences containing an
action verb, trimmed, truncated to 80 characters (with an ellipsis when the
untrimmed sentence is longer than 80), first three in document order. -/
def extractActionItemsLocal (content : String) : List String :=
  let sentences := jsSplitSentences content
  ((sentences.filter
      (fun s => actionVerbs.any (fun v => jsIncludes (jsToLower s) v))).map
    (fun s => jsTake (jsTrim s) 80 ++ (if s.length > 80 then "..." else ""))).take 3

def languageWordLists : List (String × List String) :=
  [("es", ["el", "la", "de", "que", "y", "a", "en", "un", "es", "se", "no", "te", "lo", "le", "da", "su", "por", "son", "con", "para", "está", "como", "muy", "pero", "todo", "esta", "una"]),
   ("fr", ["le", "de", "et", "à", "un", "il", "être", "et", "en", "avoir", "que", "pour", "dans", "ce", "son", "une", "sur", "avec", "ne", "se", "pas", "tout", "plus", "par", "grand", "quand", "même", "lui", "bien", "où"]),
   ("de", ["der", "die", "und", "in", "den", "von", "zu", "das", "mit", "sich", "des", "auf", "für", "ist", "im", "dem", "nicht", "ein", "eine", "als", "auch", "es", "an", "werden", "aus", "er", "hat", "dass", "sie", "nach"])]

/-- `HuggingFaceAIService.detectLanguageLocal`: token-count scoring against
the per-language stop-word lists, `"en"` when no list scores above zero. -/
def detectLanguageLocal (content : String) : String :=
  let words := jsSplitWs (jsToLower content)
  (languageWordLists.foldl
    (fun acc lw =>
      let score := (words.filter (fun w => lw.2.contains w)).length
      if score > acc.1 then (score, lw.1) else acc)
    (0, "en")).2

/-- `HuggingFaceAIService.generateSummary`: fixed template keyed by the
detected category, parameterized by the priority string. -/
def generateSummary (_originalContent category priority : String) : String :=
  if category == "urgent" then
    "Urgent " ++ priority ++ " priority message requiring immediate attention"
  else if category == "support" then
    "Support request with " ++ priority ++ " priority requiring assistance"
  else if category == "sales" then
    "Sales-related inquiry with " ++ priority ++ " priority"
  else if category == "meeting" then
    "Meeting or scheduling request with " ++ priority ++ " priority"
  else if category == "report" then
    "Report or status update with " ++ priority ++ " priority"
  else if category == "complaint" then
    "Customer complaint requiring " ++ priority ++ " priority response"
  else
    "General correspondence with " ++ priority ++ " priority"

/-- The record produced by `performLocalAnalysis` (field names follow the
source object literal; the confidence is an exact rational). -/
structure LocalAnalysis where
  category : String
  priority : String
  sentiment : String
  key_topics : List String
  action_items : List String
  summary : String
  requires_human_review : Bool
  detected_language : String
  urgency_score : Nat
  word_count : Nat
  analysis_confidence : ℚ
deriving DecidableEq, Repr

/-- `HuggingFaceAIService.performLocalAnalysis`: lowercase the content, split
it into tokens, and assemble the analysis record from the rule-based
helpers. -/
def performLocalAnalysis (emailContent : String) : LocalAnalysis :=
  let content := jsToLower emailContent
  let words := jsSplitWs content
  let category := detectCategory content
  let priority := detectPriority content words
  let sentiment := detectSentiment content
  let urgencyScore := calculateUrgencyScore content
  let keyTopics := extractKeyTopics content words
  let actionItems := extractActionItemsLocal content
  let detectedLanguage := detectLanguageLocal content
  let summary := generateSummary emailContent category priority
  { category := category
    priority := priority
    sentiment := sentiment
    key_topics := keyTopics
    action_items := actionItems
    summary := summary
    requires_human_review :=
      priority == "high" || category == "urgent" || sentiment == "negative"
    detected_language := detectedLanguage
    urgency_score := urgencyScore
    word_count := words.length
    analysis_confidence := 0.85 }

/-! ## Extraction utilities (`HostingerEmailClient` in `src/core/emailClient.js`)

`extractVerificationCode` applies
`/(?:code|token|otp)\s*(?:is)?\s*:?\s*([A-Z0-9]{4,8})/i` and
`extractVerificationLinks` applies
`/https?:\/\/[^\s<>"]+(?:verify|confirm|activate)[^\s<>"]*/gi`.
Both matchers below implement the backtracking search of those concrete
patterns over character lists. -/

/-- The email-content argument of the extraction utilities: an object with
optional `text` and `html` fields. -/
structure EmailContent where
  text : Option String
  html : Option String
deriving DecidableEq, Repr

/-- JavaScript `a || b` over a possibly-absent string `a`: an absent field
and the empty string are both falsy. -/
def jsOrStr (a : Option String) (b : String) : String :=
  match a with
  | some s => if s == "" then b else s
  | none => b

/-- Case-insensitive literal match: `ciStarts pat l` consumes the pattern
`pat` (given lowercase) from the front of `l`, returning the rest. -/
def ciStarts : List Char → List Char → Option (List Char)
  | [], l => some l
  | _ :: _, [] => none
  | p :: ps, c :: cs => if lowerChar c == p then ciStarts ps cs else none

/-- A character admitted by `[A-Z0-9]` under the `i` flag. -/
def isCodeChar (c : Char) : Bool :=
  c.isAlpha || c.isDigit

/-- `([A-Z0-9]{4,8})` with the `i` flag: greedily take up to eight class
characters; fail below four.  Nothing follows the group in the pattern, so
no further backtracking is needed. -/
def codeCapture (cs : List Char) : Option (List Char) :=
  let run := cs.takeWhile isCodeChar
  if run.length ≥ 4 then some (run.take 8) else none

/-- `:?\s*([A-Z0-9]{4,8})`: the optional colon is tried greedily first and
given back if the capture then fails. -/
def codeAfterColonOpt (cs : List Char) : Option (List Char) :=
  match cs with
  | ':' :: rest =>
    match codeCapture (rest.dropWhile jsIsWs) with
    | some g => some g
    | none => codeCapture cs
  | _ => codeCapture cs

/-- `\s*(?:is)?\s*:?\s*([A-Z0-9]{4,8})`, entered right after one of the
keywords matched: the optional `is` is tried greedily first and given back
if the remainder then fails.  (`\s*` is deterministic here: no later
pattern element can consume a whitespace character.) -/
def codeAfterKey (cs : List Char) : Option (List Char) :=
  let cs1 := cs.dropWhile jsIsWs
  match ciStarts ['i', 's'] cs1 with
  | some rest =>
    match codeAfterColonOpt (rest.dropWhile jsIsWs) with
    | some g => some g
    | none => codeAfterColonOpt cs1
  | none => codeAfterColonOpt cs1

/-- The alternation `(?:code|token|otp)` followed by the tail of the
pattern, attempted at one start position. -/
def codeTryAt (cs : List Char) : Option (List Char) :=
  (match ciStarts ['c', 'o', 'd', 'e'] cs with
   | some rest => codeAfterKey rest
   | none => none) <|>
  (match ciStarts ['t', 'o', 'k', 'e', 'n'] cs with
   | some rest => codeAfterKey rest
   | none => none) <|>
  (match ciStarts ['o', 't', 'p'] cs with
   | some rest => codeAfterKey rest
   | none => none)

/-- `RegExp.prototype.exec` scan: attempt the pattern at each successive
start position and keep the first (leftmost) match's capture group. -/
def codeScan : List Char → Option (List Char)
  | [] => none
  | c :: cs =>
    match codeTryAt (c :: cs) with
    | some g => some g
    | none => codeScan cs

/-- `HostingerEmailClient.extractVerificationCode`: run the code regex over
`content.text || content.html || ''` and return the first capture group, or
`none` when the regex does not match. -/
def extractVerificationCode (emailContent : EmailContent) : Option String :=
  let content := jsOrStr emailContent.text (jsOrStr emailContent.html "")
  (codeScan content.toList).map String.mk

/-- A character admitted by `[^\s<>"]`. -/
def isUrlChar (c : Char) : Bool :=
  !(jsIsWs c || c == '<' || c == '>' || c == '"')

/-- Case-insensitive occurrence of `pat` (given lowercase) anywhere in
`l`. -/
def ciHasSub (pat : List Char) : List Char → Bool
  | [] => (ciStarts pat []).isSome
  | c :: cs => (ciStarts pat (c :: cs)).isSome || ciHasSub pat cs

/-- `(?:verify|confirm|activate)` occurring somewhere in the given run. -/
def hasLinkKeyword (run : List Char) : Bool :=
  ciHasSub "verify".toList run || ciHasSub "confirm".toList run ||
    ciHasSub "activate".toList run

/-- `https?:\/\/` under the `i` flag: the optional `s` is tried greedily
first and given back if `://` then fails. -/
def urlSchemeTail (cs : List Char) : Option (List Char) :=
  (match cs with
   | c :: t => if lowerChar c == 's' then ciStarts [':', '/', '/'] t else none
   | [] => none) <|>
  ciStarts [':', '/', '/'] cs

/-- One attempt of the link pattern at a start position.  After the scheme,
`[^\s<>"]+(?:verify|confirm|activate)[^\s<>"]*` succeeds exactly when the
maximal run of admitted characters contains a marker keyword at an offset
of at least one (the `+` needs one character before it); since nothing in
the pattern follows the trailing `*`, the full match always extends to the
end of that run.  Returns the matched characters and the remainder of the
input after the match. -/
def linkTryAt (cs : List Char) : Option (List Char × List Char) :=
  match ciStarts ['h', 't', 't', 'p'] cs with
  | none => none
  | some r1 =>
    match urlSchemeTail r1 with
    | none => none
    | some r2 =>
      let run := r2.takeWhile isUrlChar
      if hasLinkKeyword (run.drop 1) then
        let schemeLen := cs.length - r2.length
        some (cs.take (schemeLen + run.length), r2.drop run.length)
      else none

/-- `String.prototype.match` with the `g` flag: scan left to right,
collecting non-overlapping matches, resuming after each match.  The fuel is
the input length; every step consumes at least one character, so the fuel
never runs out before the input does. -/
def linkScan : Nat → List Char → List (List Char)
  | 0, _ => []
  | _ + 1, [] => []
  | fuel + 1, c :: cs =>
    match linkTryAt (c :: cs) with
    | some (m, rest) => m :: linkScan fuel rest
    | none => linkScan fuel cs

/-- `HostingerEmailClient.extractVerificationLinks`: run the link regex with
the `g` flag over `content.html || content.text || ''`; `match` returning
`null` becomes the empty list. -/
def extractVerificationLinks (emailContent : EmailContent) : List String :=
  let htmlContent := jsOrStr emailContent.html (jsOrStr emailContent.text "")
  (linkScan htmlContent.toList.length htmlContent.toList).map String.mk

/-! ## JSON extraction and vendor-response parsing

`JSON.parse` is an external library call; it is passed in as an explicit
`jsonParse` function returning `none` where the original would throw.  The
brace-matching regex `/\{[\s\S]*\}/` that both `huggingfaceService.js` and
`MultiAIService.parseAIResponse` run before parsing is implemented
concretely. -/

def lbChar : Char := '\x7b'

def rbChar : Char := '\x7d'

/-- The match of `/\{[\s\S]*\}/` against `s`: from the first opening brace
to the last closing brace after it, `none` when no such pair exists. -/
def extractBraces (s : String) : Option String :=
  match s.toList.dropWhile (fun c => c != lbChar) with
  | [] => none
  | lb :: t =>
    let upto := (t.reverse.dropWhile (fun c => c != rbChar)).reverse
    if upto.isEmpty then none else some (String.mk (lb :: upto))

/-- An analysis object as parsed from a remote vendor's raw response: every
field is optional because `JSON.parse` reproduces exactly the keys the
vendor emitted. -/
structure VendorAnalysis where
  category : Option String
  priority : Option String
  sentiment : Option String
  summary : Option String
  requires_human_review : Option Bool
  raw_response : Option String
deriving DecidableEq, Repr

/-- `MultiAIService.parseAIResponse` (`src/core/emailClient.js`): extract a
brace-delimited JSON substring and parse it (or parse the whole response);
if parsing throws, return the fixed fallback object — which carries no
`requires_human_review` key. -/
def parseAIResponse (jsonParse : String → Option VendorAnalysis)
    (response : String) : VendorAnalysis :=
  let fallback : VendorAnalysis :=
    { category := some "general"
      priority := some "medium"
      sentiment := some "neutral"
      summary := some "AI analysis available but parsing failed"
      requires_human_review := none
      raw_response := some response }
  match extractBraces response with
  | some jsonStr =>
    match jsonParse jsonStr with
    | some v => v
    | none => fallback
  | none =>
    match jsonParse response with
    | some v => v
    | none => fallback

/-! ## `HuggingFaceAIService` capability calls

The constructor records `enabled := apiToken present`; each operation is
parameterized by the outcome of the single remote Hugging Face call
(`Except.error` for a rejected promise — network failure or timeout) and by
the `JSON.parse` outcome where the operation parses vendor text.  `throw`
is `Except.error`; the impure timestamp field is omitted. -/

def disabledMsg : String :=
  "Hugging Face AI service is disabled - missing HUGGINGFACE_API_TOKEN"

/-- The analysis carried by an `analyzeEmail` result: either the vendor's
parsed JSON or a record of the local inference engine. -/
inductive AnalysisVal where
  | vendor (v : VendorAnalysis)
  | localA (a : LocalAnalysis)
deriving DecidableEq, Repr

structure HFAnalyzeResult where
  success : Bool
  analysis : AnalysisVal
  model_used : String
  provider : String
  note : Option String
deriving DecidableEq, Repr

/-- `HuggingFaceAIService.analyzeEmail` with the default options
(`model = this.models.smart = "gpt2"`).  When disabled it throws; when the
remote text generation succeeds its text is mined for JSON, falling back to
`extractAnalysisFromText` (= `performLocalAnalysis` of the original email)
when none parses; when the remote call rejects, the outer catch returns the
local analysis marked `provider = "local"`. -/
def analyzeEmail (enabled : Bool) (remote : Except String String)
    (jsonParse : String → Option VendorAnalysis) (emailContent : String) :
    Except String HFAnalyzeResult :=
  if !enabled then Except.error disabledMsg
  else
    match remote with
    | Except.ok generatedText =>
      let analysis :=
        match extractBraces generatedText with
        | some jsonStr =>
          match jsonParse jsonStr with
          | some v => AnalysisVal.vendor v
          | none => AnalysisVal.localA (performLocalAnalysis emailContent)
        | none => AnalysisVal.localA (performLocalAnalysis emailContent)
      Except.ok
        { success := true
          analysis := analysis
          model_used := "gpt2"
          provider := "huggingface"
          note := none }
    | Except.error _ =>
      Except.ok
        { success := true
          analysis := AnalysisVal.localA (performLocalAnalysis emailContent)
          model_used := "local-intelligent-analysis"
          provider := "local"
          note := some "Analysis performed using advanced local intelligence system" }

/-- The per-intent, per-tone response table of
`HuggingFaceAIService.generateLocalResponse`; `none` models a missing
(undefined) entry for an unknown tone. -/
def localResponseFor (responseType tone : String) : Option String :=
  if responseType == "meeting" then
    if tone == "professional" then some "Thank you for your meeting request. I would be happy to discuss this with you. The proposed time works well for me. I will send you a calendar invitation shortly. Please let me know if you need to reschedule."
    else if tone == "friendly" then some "Hi! I\x27d love to meet and discuss this with you. The time you suggested works great for me. I\x27ll send over a calendar invite soon. Looking forward to our conversation!"
    else if tone == "formal" then some "Dear Sir/Madam, Thank you for your meeting request. I confirm my availability for the proposed time. I shall prepare the relevant materials for our discussion. Please advise if any changes are required."
    else none
  else if responseType == "thanks" then
    if tone == "professional" then some "Thank you for your kind words. I\x27m pleased to hear that you\x27re satisfied with our service. Please don\x27t hesitate to reach out if you need any further assistance."
    else if tone == "friendly" then some "Thank you so much for the positive feedback! It really makes my day to hear that you\x27re happy with everything. Feel free to reach out anytime if you need anything else."
    else if tone == "formal" then some "I appreciate your acknowledgment. It is gratifying to know that our services have met your expectations. We remain at your disposal for any future requirements."
    else none
  else if responseType == "question" then
    if tone == "professional" then some "Thank you for your inquiry. I\x27d be happy to help answer your question. Based on what you\x27ve asked, I recommend [specific action/information]. Please let me know if you need any clarification or additional information."
    else if tone == "friendly" then some "Great question! I\x27m happy to help you out with this. From what I can see, the best approach would be to [solution]. Let me know if that makes sense or if you have any other questions!"
    else if tone == "formal" then some "Thank you for your inquiry. I shall be pleased to provide you with the requested information. I recommend the following course of action for your consideration. Should you require further clarification, please do not hesitate to contact me."
    else none
  else if responseType == "request" then
    if tone == "professional" then some "Thank you for your request. I understand what you need and I\x27ll be glad to help. I will work on this and get back to you with an update shortly. Please let me know if you have any specific timeline requirements."
    else if tone == "friendly" then some "Thanks for reaching out! I can definitely help you with this request. I\x27ll get started on it right away and keep you posted on the progress. Let me know if you need it by a certain time!"
    else if tone == "formal" then some "I acknowledge receipt of your request. I shall attend to this matter with due diligence and provide you with a response at the earliest opportunity. Please advise if there are any urgent considerations."
    else none
  else if responseType == "complaint" then
    if tone == "professional" then some "Thank you for bringing this to my attention. I sincerely apologize for any inconvenience you\x27ve experienced. I take your concerns seriously and will investigate this matter immediately. I\x27ll follow up with you within 24 hours with a resolution."
    else if tone == "friendly" then some "I\x27m really sorry to hear about this issue. That definitely shouldn\x27t have happened, and I want to make it right for you. Let me look into this right away and I\x27ll get back to you as soon as possible with a solution."
    else if tone == "formal" then some "I regret to learn of the difficulties you have encountered. Please accept my sincere apologies for any inconvenience caused. I shall investigate this matter thoroughly and ensure that appropriate corrective measures are implemented without delay."
    else none
  else
    if tone == "professional" then some "Thank you for your email. I\x27ve reviewed your message and will respond appropriately. If you have any questions or need immediate assistance, please don\x27t hesitate to contact me."
    else if tone == "friendly" then some "Thanks for your email! I appreciate you reaching out. I\x27ll take a look at everything and get back to you soon. Feel free to let me know if you need anything else in the meantime!"
    else if tone == "formal" then some "Thank you for your correspondence. I have received and reviewed your message. I shall respond accordingly and remain available should you require any further assistance."
    else none

/-- `HuggingFaceAIService.generateLocalResponse`: classify the intent by
keyword containment (first match wins, in source order), then select the
template by intent and tone, falling back to the general template for the
tone and finally to the general professional template (every defined
template is a non-empty string, so JavaScript `||` is exactly the
defined-or-default chain). -/
def generateLocalResponse (originalEmail tone : String) : String :=
  let email := jsToLower originalEmail
  let responseType :=
    if jsIncludes email "meeting" || jsIncludes email "schedule" ||
        jsIncludes email "appointment" then "meeting"
    else if jsIncludes email "thank" || jsIncludes email "thanks" then "thanks"
    else if jsIncludes email "question" || jsIncludes email "help" ||
        jsIncludes email "?" then "question"
    else if jsIncludes email "request" || jsIncludes email "please" then "request"
    else if jsIncludes email "complaint" || jsIncludes email "problem" ||
        jsIncludes email "issue" then "complaint"
    else "general"
  (localResponseFor responseType tone).getD
    ((localResponseFor "general" tone).getD
      ((localResponseFor "general" "professional").getD ""))

structure GenResponseResult where
  success : Bool
  response : String
  model_used : String
  provider : String
  note : Option String
deriving DecidableEq, Repr

/-- `HuggingFaceAIService.generateEmailResponse`: throws when disabled; on a
successful remote generation returns the trimmed text; on a rejected remote
call falls back to `generateLocalResponse`. -/
def generateEmailResponse (enabled : Bool) (remote : Except String String)
    (originalEmail _context tone : String) : Except String GenResponseResult :=
  if !enabled then Except.error disabledMsg
  else
    match remote with
    | Except.ok generatedText =>
      Except.ok
        { success := true
          response := jsTrim generatedText
          model_used := "gpt2"
          provider := "huggingface"
          note := none }
    | Except.error _ =>
      Except.ok
        { success := true
          response := generateLocalResponse originalEmail tone
          model_used := "local-intelligent-generation"
          provider := "local"
          note := some "Response generated using advanced local intelligence system" }

/-- A message of an email thread as consumed by `summarizeEmailThread` (the
fields feed only the prompt of the remote call). -/
structure ThreadMsg where
  sender : String
  subject : String
  date : String
  text : String
deriving DecidableEq, Repr

structure SummarizeResult where
  success : Bool
  summary : Option String
  model_used : Option String
  provider : Option String
  thread_length : Option Nat
  error : Option String
deriving DecidableEq, Repr

/-- `HuggingFaceAIService.summarizeEmailThread`: throws when disabled; on a
rejected remote call it does not fall back — it returns a result object
with `success: false` and the error message. -/
def summarizeEmailThread (enabled : Bool) (remote : Except String String)
    (emails : List ThreadMsg) : Except String SummarizeResult :=
  if !enabled then Except.error disabledMsg
  else
    match remote with
    | Except.ok generatedText =>
      Except.ok
        { success := true
          summary := some generatedText
          model_used := some "gpt2"
          provider := some "huggingface"
          thread_length := some emails.length
          error := none }
    | Except.error e =>
      Except.ok
        { success := false
          summary := none
          model_used := none
          provider := none
          thread_length := none
          error := some e }

structure ActionItem where
  task : String
  deadline : String
  priority : String
  assignee : String
deriving DecidableEq, Repr

structure ActionData where
  action_items : List ActionItem
  has_deadlines : Bool
  urgent_items : List String
deriving DecidableEq, Repr

structure ActionItemsResult where
  success : Bool
  data : ActionData
  model_used : String
  provider : String
  note : Option String
deriving DecidableEq, Repr

/-- The locally computed action-item payload shared by the disabled branch
and the rejected-remote branch of `extractActionItems`. -/
def localActionData (emailContent : String) : ActionData :=
  let localActions := extractActionItemsLocal (jsToLower emailContent)
  { action_items :=
      localActions.map fun a =>
        { task := a, deadline := "none", priority := "medium", assignee := "unspecified" }
    has_deadlines := false
    urgent_items :=
      localActions.filter fun a =>
        jsIncludes (jsToLower a) "urgent" || jsIncludes (jsToLower a) "asap" ||
          jsIncludes (jsToLower a) "immediate" }

/-- `HuggingFaceAIService.extractActionItems`: unlike the other capability
calls, the disabled branch does not throw — it returns a successful,
locally computed result; the enabled branch mines the remote text for JSON
(empty payload when nothing parses) and falls back to the local extraction
when the remote call rejects. -/
def extractActionItems (enabled : Bool) (remote : Except String String)
    (jsonParse : String → Option ActionData) (emailContent : String) :
    Except String ActionItemsResult :=
  if !enabled then
    Except.ok
      { success := true
        data := localActionData emailContent
        model_used := "local-intelligent-analysis"
        provider := "local"
        note := some "Action items extracted using local intelligence system" }
  else
    match remote with
    | Except.ok generatedText =>
      let data :=
        match extractBraces generatedText with
        | some jsonStr => (jsonParse jsonStr).getD ⟨[], false, []⟩
        | none => ⟨[], false, []⟩
      Except.ok
        { success := true
          data := data
          model_used := "gpt2"
          provider := "huggingface"
          note := none }
    | Except.error _ =>
      Except.ok
        { success := true
          data := localActionData emailContent
          model_used := "local-intelligent-analysis"
          provider := "local"
          note := some "Action items extracted using intelligent local fallback system" }

/-! ## `EmailVerificationWorkflow` (`src/automation/emailVerification.js`)

Machine time is an `Int` of milliseconds.  The mailbox search
`getLatestFromSender` is passed in as a function of the query time; in
`waitForVerificationEmail` each loop iteration reads the clock, queries the
mailbox, and on a missing or stale candidate sleeps 5000 ms, so the model
advances the clock by the sleep interval between iterations. -/

/-- A mailbox message as the workflow consumes it: its `Date` (milliseconds
since the epoch) and its body fields. -/
structure MailMsg where
  date : Int
  content : EmailContent
deriving DecidableEq, Repr

inductive WaitOutcome where
  | found (m : MailMsg)
  | timedOut
deriving DecidableEq, Repr

/-- The polling loop of `waitForVerificationEmail`.  While
`now - startTime < maxWaitTime`, query the mailbox; accept the newest
candidate only when `now - message.date < 300000` (the five-minute
freshness window); otherwise sleep 5000 ms and poll again; once the guard
fails, throw the timeout error (`WaitOutcome.timedOut`).  The second
component counts the mailbox queries issued. -/
def waitLoop (getLatest : Int → List MailMsg) (startTime maxWait : Int)
    (t : Int) (queries : Nat) : WaitOutcome × Nat :=
  if _h : t - startTime < maxWait then
    match getLatest t with
    | [] => waitLoop getLatest startTime maxWait (t + 5000) (queries + 1)
    | m :: _ =>
      if t - m.date < 300000 then (WaitOutcome.found m, queries + 1)
      else waitLoop getLatest startTime maxWait (t + 5000) (queries + 1)
  else (WaitOutcome.timedOut, queries)
  termination_by (startTime + maxWait - t).toNat
  decreasing_by all_goals omega

/-- `EmailVerificationWorkflow.waitForVerificationEmail`, started at clock
value `startTime`. -/
def waitForVerificationEmail (getLatest : Int → List MailMsg)
    (startTime maxWait : Int) : WaitOutcome × Nat :=
  waitLoop getLatest startTime maxWait startTime 0

/-- Outcomes of the external collaborators during one workflow run:
`connect`, the polling step (`Except.error` both for the timeout throw and
for an unexpected raise), `puppeteer.launch`, the navigation, and the wait
for the completion signal. -/
structure WfEnv where
  connectResult : Except String Unit
  pollResult : Except String MailMsg
  initResult : Except String Unit
  navigateResult : Except String Unit
  verifyResult : Except String String
deriving Repr

/-- `EmailVerificationWorkflow.cleanup`: invoke `puppeteerHelper.close()`
only when a browser was launched, and `emailClient.disconnect()`
unconditionally.  Returns the pair (number of `close()` calls, number of
`disconnect()` calls). -/
def cleanup (browserLaunched : Bool) : Nat × Nat :=
  ((if browserLaunched then 1 else 0), 1)

structure WfSuccess where
  success : Bool
  result : String
deriving DecidableEq, Repr

/-- One run of `executeVerificationWorkflow`: the surfaced result and the
cleanup call counts. -/
structure WfRun where
  result : Except String WfSuccess
  closeCalls : Nat
  disconnectCalls : Nat
  browserLaunched : Bool
deriving Repr

/-- `EmailVerificationWorkflow.executeVerificationWorkflow`: connect, wait
for the verification email, extract links (throwing when none), launch the
browser, navigate, wait for completion.  The catch block rewraps any error;
the finally block runs `cleanup` exactly once on every path, with the
browser-launched state reached by the try body. -/
def executeVerificationWorkflow (env : WfEnv) : WfRun :=
  let step : Except String WfSuccess × Bool :=
    match env.connectResult with
    | Except.error e => (Except.error e, false)
    | Except.ok _ =>
      match env.pollResult with
      | Except.error e => (Except.error e, false)
      | Except.ok email =>
        match extractVerificationLinks email.content with
        | [] => (Except.error "No verification links found", false)
        | _ :: _ =>
          match env.initResult with
          | Except.error e => (Except.error e, false)
          | Except.ok _ =>
            match env.navigateResult with
            | Except.error e => (Except.error e, true)
            | Except.ok _ =>
              match env.verifyResult with
              | Except.error e => (Except.error e, true)
              | Except.ok completionText =>
                (Except.ok { success := true, result := completionText }, true)
  let launched := step.2
  let calls := cleanup launched
  { result :=
      match step.1 with
      | Except.ok r => Except.ok r
      | Except.error e => Except.error ("Verification workflow failed: " ++ e)
    closeCalls := calls.1
    disconnectCalls := calls.2
    browserLaunched := launched }

/-! ## Auxiliary values and spec-side definitions used by the claim theorems -/

/-- The per-category keyword scores of a text, in table order. -/
def categoryScoreList (content : String) : List Nat :=
  categoryKeywords.map fun ck => keywordScore content ck.2

/-- Reference description of the tie behavior `detectCategory` actually has:
the winner is the FIRST category of the table attaining the maximal score,
and `general` is returned exactly when every score is zero.  (The spec's
words say ties resolve to `general`; this definition exists to be compared
with `detectCategory`.) -/
def specFirstMaxCategory (content : String) : String :=
  match categoryScoreList content with
  | [s1, s2, s3, s4, s5, s6] =>
    let m := max s1 (max s2 (max s3 (max s4 (max s5 s6))))
    if m = 0 then "general"
    else if s1 = m then "urgent"
    else if s2 = m then "support"
    else if s3 = m then "sales"
    else if s4 = m then "meeting"
    else if s5 = m then "report"
    else "complaint"
  | _ => "general"

/-- A vendor analysis as `JSON.parse` would deliver it for a quick-format
response `{"category": "support", "priority": "high", "sentiment":
"neutral", "summary": "needs attention"}` — the quick prompt format does
not even ask for `requires_human_review`, so the key is absent. -/
def quickVendorHigh : VendorAnalysis :=
  { category := some "support"
    priority := some "high"
    sentiment := some "neutral"
    summary := some "needs attention"
    requires_human_review := none
    raw_response := none }

/-- The raw vendor response text whose parse is `quickVendorHigh`. -/
def quickVendorRaw : String :=
  "\x7b\"category\": \"support\", \"priority\": \"high\", \"sentiment\": \"neutral\", \"summary\": \"needs attention\"\x7d"

/-- A workflow environment in which polling throws the timeout error and
every other collaborator would have succeeded. -/
def timeoutEnv : WfEnv :=
  { connectResult := Except.ok ()
    pollResult := Except.error "Verification email not received within timeout"
    initResult := Except.ok ()
    navigateResult := Except.ok ()
    verifyResult := Except.ok "Verification successful" }

/-! ## Claim theorems

First, evaluation lemmas exercising the two regex matchers on the spec's
own link-extraction examples and on a freshness boundary instance, as
sanity checks of the embedding. -/

theorem linkExtraction_evaluations :
    extractVerificationLinks ⟨none, some "<a href=\"https://x.test/verify?t=1\">go</a>"⟩ =
      ["https://x.test/verify?t=1"] ∧
    extractVerificationLinks ⟨some "see http://e.com/a and https://b.io/confirm/x ok", none⟩ =
      ["https://b.io/confirm/x"] :=
  ⟨by decide, by decide⟩

theorem freshness_one_ms_younger_accepted :
    waitForVerificationEmail (fun _ => [⟨-299999, ⟨none, none⟩⟩]) 0 5000 =
      (WaitOutcome.found ⟨-299999, ⟨none, none⟩⟩, 1) := by
  rw [waitForVerificationEmail, waitLoop]
  norm_num

/-- C1: when the service is enabled and the (single configured) remote
provider call rejects — network failure or timeout alike — `analyzeEmail`
still returns a successful result whose `provider` is `"local"`, whose
analysis is the local inference engine's, and whose analysis confidence is
exactly `0.85`; no error escapes. -/
theorem analyzeEmail_remote_failure_falls_back_local
    (emailContent err : String) (jsonParse : String → Option VendorAnalysis) :
    analyzeEmail true (Except.error err) jsonParse emailContent =
      Except.ok
        { success := true
          analysis := AnalysisVal.localA (performLocalAnalysis emailContent)
          model_used := "local-intelligent-analysis"
          provider := "local"
          note := some "Analysis performed using advanced local intelligence system" } ∧
    (performLocalAnalysis emailContent).analysis_confidence = 0.85 :=
  ⟨rfl, rfl⟩

/-- C2, counterexample: a vendor's quick-format response parses to an
analysis with `priority = "high"` but with no `requires_human_review` key,
and `parseAIResponse` returns it unchanged — nothing recomputes the field,
so the returned result violates the claimed invariant
(`requiresHumanReview` should be `true` here, but is absent). -/
theorem parseAIResponse_keeps_missing_review_field :
    (parseAIResponse (fun s => if s == quickVendorRaw then some quickVendorHigh else none)
        quickVendorRaw).priority = some "high" ∧
    (parseAIResponse (fun s => if s == quickVendorRaw then some quickVendorHigh else none)
        quickVendorRaw).requires_human_review = none :=
  ⟨by decide, by decide⟩

/-- C2, amended: the `requiresHumanReview` invariant holds for every result
of the local inference engine, which computes the field from its own
`priority`/`category`/`sentiment`; adapter output, by contrast, is passed
through `parseAIResponse` verbatim — whatever object the vendor's JSON
parsed to is returned, with no recomputation of a missing field. -/
theorem review_invariant_local_producer_only :
    (∀ content, (performLocalAnalysis content).requires_human_review =
      (((performLocalAnalysis content).priority == "high") ||
       ((performLocalAnalysis content).category == "urgent") ||
       ((performLocalAnalysis content).sentiment == "negative"))) ∧
    (∀ (jsonParse : String → Option VendorAnalysis) (raw jsonStr : String)
        (v : VendorAnalysis),
      extractBraces raw = some jsonStr → jsonParse jsonStr = some v →
      parseAIResponse jsonParse raw = v) := by
  refine ⟨fun content => rfl, fun jsonParse raw jsonStr v h1 h2 => ?_⟩
  simp [parseAIResponse, h1, h2]

theorem review_invariant_local_producer_only_witness :
    ((performLocalAnalysis "all good").requires_human_review =
      (((performLocalAnalysis "all good").priority == "high") ||
       ((performLocalAnalysis "all good").category == "urgent") ||
       ((performLocalAnalysis "all good").sentiment == "negative"))) ∧
    parseAIResponse (fun _ => some quickVendorHigh) "\x7b\x7d" = quickVendorHigh :=
  ⟨review_invariant_local_producer_only.1 "all good",
   review_invariant_local_producer_only.2 (fun _ => some quickVendorHigh)
     "\x7b\x7d" "\x7b\x7d" quickVendorHigh (by decide) rfl⟩

/-- C3: evaluation at the failing input.  The local priority operation
lowercases the text before tokenizing, so the all-caps shout check
(`word === word.toUpperCase()`) can never fire on a word containing
letters: `"PLEASE RESPOND SOON"` comes out `"medium"`.  Had
`detectPriority` received the original-case tokens, the same text would
have scored `"high"`, as the spec describes. -/
theorem allCapsShoutLostByLowercasing :
    (performLocalAnalysis "PLEASE RESPOND SOON").priority = "medium" ∧
    detectPriority "please respond soon" ["PLEASE", "RESPOND", "SOON"] = "high" :=
  ⟨by decide, by decide⟩

/-- C4, counterexample: with the clock at 0, a single candidate message
dated exactly one freshness window (300000 ms) in the past is NOT accepted
— the loop treats it as stale, keeps polling and times out — contradicting
the claim that a message aged exactly the window is accepted. -/
theorem freshness_exact_edge_rejected :
    waitForVerificationEmail (fun _ => [⟨-300000, ⟨none, none⟩⟩]) 0 5000 =
      (WaitOutcome.timedOut, 1) := by
  rw [waitForVerificationEmail, waitLoop]
  norm_num
  rw [waitLoop]
  norm_num

/-- C4, amended: the freshness comparison is strict — a candidate is
accepted exactly when its age is strictly less than the window
(`now - message.date < 300000`), so a message one millisecond younger than
the window is accepted while one aged exactly the window is rejected as
stale and polling continues. -/
theorem freshness_boundary_strict (m : MailMsg) :
    waitForVerificationEmail (fun _ => [m]) 0 5000 =
      if 0 - m.date < 300000 then (WaitOutcome.found m, 1)
      else (WaitOutcome.timedOut, 1) := by
  by_cases h : -m.date < (300000 : Int)
  · rw [waitForVerificationEmail, waitLoop]
    norm_num [h]
  · rw [waitForVerificationEmail, waitLoop]
    norm_num [h]
    rw [waitLoop]
    norm_num

/-- C5: when the allotted wait is already non-positive as the polling loop
starts, the guard `now - startTime < maxWaitTime` fails at once: the loop
yields the timed-out failure having issued zero mailbox queries. -/
theorem past_deadline_times_out_without_query
    (getLatest : Int → List MailMsg) (startTime maxWait : Int)
    (h : maxWait ≤ 0) :
    waitForVerificationEmail getLatest startTime maxWait =
      (WaitOutcome.timedOut, 0) := by
  rw [waitForVerificationEmail, waitLoop]
  have hc : ¬ (startTime - startTime < maxWait) := by omega
  rw [dif_neg hc]

theorem past_deadline_times_out_without_query_witness :
    waitForVerificationEmail (fun _ => [⟨0, ⟨none, none⟩⟩]) 42 0 =
      (WaitOutcome.timedOut, 0) :=
  past_deadline_times_out_without_query (fun _ => [⟨0, ⟨none, none⟩⟩]) 42 0
    (by norm_num)

/-- C6, counterexample: when polling throws the timeout error, the run
reaches the timed-out terminal state with the browser never launched, and
`cleanup` — guarding on `puppeteerHelper.browser` — never invokes
`close()`: the claim that `close()` is invoked exactly once in every
terminal state fails.  (`disconnect()` is still invoked exactly once.) -/
theorem workflow_timeout_skips_close :
    (executeVerificationWorkflow timeoutEnv).closeCalls = 0 ∧
    (executeVerificationWorkflow timeoutEnv).disconnectCalls = 1 ∧
    (executeVerificationWorkflow timeoutEnv).result =
      Except.error
        "Verification workflow failed: Verification email not received within timeout" :=
  ⟨rfl, rfl, rfl⟩

/-- C6, amended: on every exit path — the three terminal states and any
unexpected raise from polling — the finally-block cleanup runs exactly
once: `disconnect()` is invoked exactly once, and `close()` is invoked
exactly once on precisely those paths that launched the browser (connect
succeeded, a message was obtained, a verification link was found, and the
browser initialized), and zero times on the paths failing earlier. -/
theorem workflow_cleanup_counts (env : WfEnv) :
    (executeVerificationWorkflow env).disconnectCalls = 1 ∧
    (executeVerificationWorkflow env).closeCalls =
      (if (executeVerificationWorkflow env).browserLaunched then 1 else 0) ∧
    ((executeVerificationWorkflow env).browserLaunched = true ↔
      (env.connectResult = Except.ok () ∧
       (∃ email, env.pollResult = Except.ok email ∧
          extractVerificationLinks email.content ≠ []) ∧
       env.initResult = Except.ok ())) := by
  refine ⟨rfl, rfl, ?_⟩
  obtain ⟨c, p, i, n, v⟩ := env
  cases c with
  | error e => simp [executeVerificationWorkflow]
  | ok u =>
    cases u
    cases p with
    | error e => simp [executeVerificationWorkflow]
    | ok email =>
      cases hl : extractVerificationLinks email.content with
      | nil => simp [executeVerificationWorkflow, hl]
      | cons a as =>
        cases i with
        | error e => simp [executeVerificationWorkflow, hl]
        | ok u2 =>
          cases u2
          cases n with
          | error e => simp [executeVerificationWorkflow, hl]
          | ok u3 =>
            cases u3
            cases v <;> simp [executeVerificationWorkflow, hl]

/-- C7, counterexample: on `"urgent help"` the urgent and support
categories tie at the (maximal, positive) score 1, yet `detectCategory`
returns `"urgent"`, not `"general"` — the first tied category of the table
wins, so the claim's tie clause is false. -/
theorem detectCategory_tie_first_wins :
    detectCategory "urgent help" = "urgent" ∧
    categoryScoreList "urgent help" = [1, 1, 0, 0, 0, 0] :=
  ⟨by decide, by decide⟩

set_option maxHeartbeats 3200000 in
/-- C7, amended: `detectCategory` scores each category by its keyword count
and returns the FIRST category of the fixed order (urgent, support, sales,
meeting, report, complaint) attaining the maximal score; `general` results
exactly when every score is zero.  A strictly-highest scorer still wins;
ties go to the earliest tied category, never to `general` (unless all
scores vanish). -/
theorem detectCategory_eq_firstMax (content : String) :
    detectCategory content = specFirstMaxCategory content := by
  simp only [detectCategory, specFirstMaxCategory, categoryScoreList, categoryKeywords,
    List.foldl, List.map]
  generalize keywordScore content ["urgent", "asap", "immediate", "emergency", "critical", "deadline", "rush"] = s1
  generalize keywordScore content ["help", "issue", "problem", "bug", "error", "support", "assistance", "trouble"] = s2
  generalize keywordScore content ["purchase", "buy", "order", "payment", "invoice", "billing", "subscription", "pricing", "cost", "quote"] = s3
  generalize keywordScore content ["meeting", "schedule", "appointment", "call", "conference", "zoom", "teams"] = s4
  generalize keywordScore content ["report", "status", "update", "progress", "summary", "quarterly", "monthly"] = s5
  generalize keywordScore content ["complaint", "dissatisfied", "unhappy", "frustrated", "disappointed", "refund"] = s6
  split_ifs <;> first | rfl | (exfalso; omega)

/-- C8, counterexample: the code regex carries the `i` flag, so
`[A-Z0-9]{4,8}` also matches lowercase letters: on `"no code here"` the
pattern matches `"code here"` and captures `"here"` — the function does
not return `none` there. -/
theorem extractVerificationCode_matches_here :
    extractVerificationCode ⟨some "no code here", none⟩ = some "here" ∧
    extractVerificationCode ⟨some "no code here", none⟩ ≠ none :=
  ⟨by decide, by decide⟩

/-- C8, amended: the regex matches "code/token/otp", an optional "is", an
optional colon and whitespace, then 4–8 alphanumeric characters matched
CASE-INSENSITIVELY (the pattern's `i` flag applies to the character class
too), returning the first capture group or `none`; consequently
`{text: "Your code is: AB12CD"}` yields `"AB12CD"`, but
`{text: "no code here"}` yields `"here"` rather than none. -/
theorem extractVerificationCode_case_insensitive_capture :
    extractVerificationCode ⟨some "Your code is: AB12CD", none⟩ = some "AB12CD" ∧
    extractVerificationCode ⟨some "no code here", none⟩ = some "here" ∧
    extractVerificationCode ⟨some "your TOKEN: ab12cd", none⟩ = some "ab12cd" ∧
    extractVerificationCode ⟨some "nothing to see", none⟩ = none :=
  ⟨by decide, by decide, by decide, by decide⟩

/-- C9: constructed without an API token (`enabled = false`),
`analyzeEmail`, `generateEmailResponse` and `summarizeEmailThread` all
throw the disabled-service error — whatever the remote environment would
have done — while `extractActionItems` instead returns a successful,
locally computed result with `provider = "local"`. -/
theorem disabled_service_throws_except_action_items
    (content ctx tone : String) (remote : Except String String)
    (pV : String → Option VendorAnalysis) (pA : String → Option ActionData)
    (emails : List ThreadMsg) :
    analyzeEmail false remote pV content = Except.error disabledMsg ∧
    generateEmailResponse false remote content ctx tone = Except.error disabledMsg ∧
    summarizeEmailThread false remote emails = Except.error disabledMsg ∧
    extractActionItems false remote pA content =
      Except.ok
        { success := true
          data := localActionData content
          model_used := "local-intelligent-analysis"
          provider := "local"
          note := some "Action items extracted using local intelligence system" } :=
  ⟨rfl, rfl, rfl, rfl⟩

/-- C10: `extractVerificationCode` reads `text` first and falls back to
`html`; `extractVerificationLinks` reads `html` first and falls back to
`text`; a missing field and an empty string are both skipped (JavaScript
falsiness), and when both fields are absent or empty the functions return
`none` and `[]` respectively — they never throw. -/
theorem extraction_field_priority :
    (∀ (t : String) (h : Option String), t ≠ "" →
      extractVerificationCode ⟨some t, h⟩ = extractVerificationCode ⟨some t, none⟩) ∧
    (∀ hs : String,
      extractVerificationCode ⟨none, some hs⟩ = extractVerificationCode ⟨some hs, none⟩) ∧
    (∀ hs : String,
      extractVerificationCode ⟨some "", some hs⟩ = extractVerificationCode ⟨none, some hs⟩) ∧
    (∀ (t : Option String) (hs : String), hs ≠ "" →
      extractVerificationLinks ⟨t, some hs⟩ = extractVerificationLinks ⟨none, some hs⟩) ∧
    (∀ ts : String,
      extractVerificationLinks ⟨some ts, none⟩ = extractVerificationLinks ⟨none, some ts⟩) ∧
    (∀ c : EmailContent, (c.text = none ∨ c.text = some "") →
      (c.html = none ∨ c.html = some "") →
      extractVerificationCode c = none ∧ extractVerificationLinks c = []) := by
  refine ⟨?_, ?_, ?_, ?_, ?_, ?_⟩
  · intro t h ht
    simp [extractVerificationCode, jsOrStr, ht]
  · intro hs
    rfl
  · intro hs
    rfl
  · intro t hs hh
    simp [extractVerificationLinks, jsOrStr, hh]
  · intro ts
    rfl
  · rintro ⟨ct, ch⟩ (rfl | rfl) (rfl | rfl) <;> exact ⟨rfl, rfl⟩

theorem extraction_field_priority_witness :
    (extractVerificationCode ⟨some "code is WXYZ", some "token is ABCD"⟩ =
      extractVerificationCode ⟨some "code is WXYZ", none⟩) ∧
    (extractVerificationLinks ⟨some "http://a.x/verify", some "http://b.y/confirm"⟩ =
      extractVerificationLinks ⟨none, some "http://b.y/confirm"⟩) ∧
    (extractVerificationCode ⟨some "", none⟩ = none ∧
      extractVerificationLinks ⟨some "", none⟩ = []) :=
  ⟨extraction_field_priority.1 "code is WXYZ" (some "token is ABCD") (by decide),
   extraction_field_priority.2.2.2.1 (some "http://a.x/verify") "http://b.y/confirm" (by decide),
   extraction_field_priority.2.2.2.2.2 ⟨some "", none⟩ (Or.inr rfl) (Or.inl rfl)⟩

end EmailAuto
